import Mathlib

/-!
Formal model of the scenario-generation core of two ns-3 simulation programs,
`airport.cc` and `warehouse.cc`.  Machine `uint32_t` values are modelled as
`ℕ`, with an explicit reduction modulo `2 ^ 32 = 4294967296` where the C++
arithmetic can wrap; `double` values are modelled as exact rationals `ℚ`.
Each call `std::normal_distribution(base, sd)(gen)` is modelled
location-scale style as `base + sd * z`, where `z : ℚ` is an arbitrary
standard draw supplied by an entropy source: a normal deviate can take any
real value, so the draws are universally quantified inputs of the model.
-/

/-- The C++ conversion `(uint32_t)d` of a `double` to an unsigned integer.
For nonnegative in-range values it truncates toward zero, which for a
nonnegative rational is its floor; for negative or out-of-range values the
C++ conversion is undefined behaviour, which this model sends to
`Int.toNat`'s value (`0` for negative inputs). -/
def castU32 (d : ℚ) : ℕ := (⌊d⌋).toNat

/-- A value stored in one field of the exported JSON metadata document. -/
inductive MetaVal
  | nat (n : ℕ)
  | rat (q : ℚ)
  | str (s : String)
deriving DecidableEq, Repr

/-- A flow descriptor handed to the simulation backend: an `OnOff` application
with a constant rate (bits per second), a payload size (bytes) and a start and
stop time (seconds), from a source node to a destination node. -/
structure FlowDescriptor (Node : Type) where
  source : Node
  dest : Node
  rate : ℚ
  payloadSize : ℕ
  start : ℚ
  stop : ℚ
deriving DecidableEq, Repr

namespace Airport

/-- Camera-tier size for a scenario: `150 + scenario % 51` (`airport.cc:92`). -/
def numCameras (scenario : ℕ) : ℕ := 150 + scenario % 51

/-- Access-tier size for a scenario: `10 + scenario % 6` (`airport.cc:93`). -/
def numAccessNodes (scenario : ℕ) : ℕ := 10 + scenario % 6

/-- Aggregation-tier size for a scenario: `4 + scenario % 3` (`airport.cc:94`). -/
def numAggNodes (scenario : ℕ) : ℕ := 4 + scenario % 3

/-- Core-tier size, fixed at `2` (`airport.cc:95`). -/
def numCoreNodes : ℕ := 2

/-- Cloud-tier size, fixed at `1` (`airport.cc:96`). -/
def numCloudNodes : ℕ := 1

/-- The `base` selected inside `GetInferenceDelay` (`airport.cc:38-41`):
`0.01` for `small`, `0.05` for `medium`, `0.12` otherwise (`heavy`). -/
def inferenceDelayBase (model : String) : ℚ :=
  if model = "small" then 1 / 100 else if model = "medium" then 1 / 20 else 3 / 25

/-- `GetInferenceDelay` (`airport.cc:37-44`): a normal draw with mean `base`
and standard deviation `0.2 * base`, clamped below at `0.001`. -/
def GetInferenceDelay (model : String) (z : ℚ) : ℚ :=
  max (1 / 1000) (inferenceDelayBase model + 1 / 5 * inferenceDelayBase model * z)

/-- The `base` selected inside `GetResultSize` (`airport.cc:47-50`). -/
def resultSizeBase (model : String) : ℚ :=
  if model = "small" then 200 else if model = "medium" then 500 else 1200

/-- `GetResultSize` (`airport.cc:46-53`): a normal draw with mean `base` and
standard deviation `0.15 * base`, cast to `uint32_t`, clamped below at `50`. -/
def GetResultSize (model : String) (z : ℚ) : ℕ :=
  max 50 (castU32 (resultSizeBase model + 3 / 20 * resultSizeBase model * z))

/-- The `base` selected inside `GetFrameSize` (`airport.cc:56-59`). -/
def frameSizeBase (model : String) : ℚ :=
  if model = "small" then 1000 else if model = "medium" then 1500 else 2000

/-- `GetFrameSize` (`airport.cc:55-62`): a normal draw with mean `base` and
standard deviation `0.1 * base`, cast to `uint32_t`, clamped below at `500`. -/
def GetFrameSize (model : String) (z : ℚ) : ℕ :=
  max 500 (castU32 (frameSizeBase model + 1 / 10 * frameSizeBase model * z))

/-- The `base` selected inside `GetFrameInterval` (`airport.cc:65-69`): keyed
on the processing-location category, not the model category. -/
def frameIntervalBase (processing : String) : ℚ :=
  if processing = "camera" then 3 / 20
  else if processing = "access" then 1 / 10
  else if processing = "aggregation" then 2 / 25
  else 1 / 20

/-- `GetFrameInterval` (`airport.cc:64-72`): a normal draw with mean `base`
and standard deviation `0.05 * base`, clamped below at `0.01`. -/
def GetFrameInterval (processing : String) (z : ℚ) : ℚ :=
  max (1 / 100) (frameIntervalBase processing + 1 / 20 * frameIntervalBase processing * z)

/-- The per-camera configuration record (`airport.cc:23-34`). -/
structure CameraConfig where
  id : ℕ
  accessId : ℕ
  aggregationId : ℕ
  coreId : ℕ
  processing : String
  model : String
  frameSize : ℕ
  frameInterval : ℚ
  inferenceDelay : ℚ
  resultSize : ℕ
deriving DecidableEq, Repr

/-- The model-category table `{"small","medium","heavy"}` (`airport.cc:150`). -/
def models : List String := ["small", "medium", "heavy"]

/-- The processing-category table `{"camera","access","aggregation","core"}`
(`airport.cc:151`). -/
def procs : List String := ["camera", "access", "aggregation", "core"]

/-- The random draws consumed while building one scenario's camera configs.
`procChoice` models `procDist(gen)`, a uniform integer in `[0,3]`
(`airport.cc:86`); the `z` streams are the standard normal draws feeding the
four `Get*` helpers, one per camera index. -/
structure Entropy where
  procChoice : ℕ → Fin 4
  zFrameSize : ℕ → ℚ
  zFrameInterval : ℕ → ℚ
  zInferenceDelay : ℕ → ℚ
  zResultSize : ℕ → ℚ

/-- One iteration of the camera-config loop (`airport.cc:153-168`).  The
`getD` defaults are never reached: the indices are `< 3`, resp. `< 4`. -/
def mkConfig (scenario : ℕ) (e : Entropy) (i : ℕ) : CameraConfig :=
  let model := models.getD (i % 3) "heavy"
  let proc := procs.getD ((e.procChoice i : ℕ)) "core"
  { id := i
    accessId := i % numAccessNodes scenario
    aggregationId := i % numAggNodes scenario
    coreId := i % numCoreNodes
    processing := proc
    model := model
    frameSize := GetFrameSize model (e.zFrameSize i)
    frameInterval := GetFrameInterval proc (e.zFrameInterval i)
    inferenceDelay := GetInferenceDelay model (e.zInferenceDelay i)
    resultSize := GetResultSize model (e.zResultSize i) }

/-- The scenario's full camera-config vector (`airport.cc:149-168`). -/
def configs (scenario : ℕ) (e : Entropy) : List CameraConfig :=
  (List.range (numCameras scenario)).map (mkConfig scenario e)

/-- The airport topology's tiers. -/
inductive Tier
  | camera
  | access
  | aggregation
  | core
  | cloud
deriving DecidableEq, Repr

/-- The node receiving a camera's ingest flow, and sourcing its result flow
(`airport.cc:172-176` and `airport.cc:188-192`): selected by the
processing-location category, indexed by the camera's precomputed per-tier
index. -/
def destNode (c : CameraConfig) : Tier × ℕ :=
  if c.processing = "camera" then (Tier.camera, c.id)
  else if c.processing = "access" then (Tier.access, c.accessId)
  else if c.processing = "aggregation" then (Tier.aggregation, c.aggregationId)
  else (Tier.core, c.coreId)

/-- The ingest flow (`airport.cc:178-183`): camera to processing node, rate
`c.frameSize*8 / c.frameInterval` where `c.frameSize*8` is `uint32_t`
arithmetic (hence the reduction modulo `2^32`), payload `c.frameSize`,
running from `1.0` to `20.0` seconds. -/
def ingestFlow (c : CameraConfig) : FlowDescriptor (Tier × ℕ) :=
  { source := (Tier.camera, c.id)
    dest := destNode c
    rate := (((c.frameSize * 8) % 4294967296 : ℕ) : ℚ) / c.frameInterval
    payloadSize := c.frameSize
    start := 1
    stop := 20 }

/-- The result flow (`airport.cc:187-199`): processing node to the cloud
sink, rate `c.resultSize*8 / 0.5` (again `uint32_t` arithmetic on
`c.resultSize*8`), payload `c.resultSize`, starting at `1.0 + inference
delay` and stopping at `20.0` seconds. -/
def resultFlow (c : CameraConfig) : FlowDescriptor (Tier × ℕ) :=
  { source := destNode c
    dest := (Tier.cloud, 0)
    rate := (((c.resultSize * 8) % 4294967296 : ℕ) : ℚ) / (1 / 2)
    payloadSize := c.resultSize
    start := 1 + c.inferenceDelay
    stop := 20 }

/-- One camera's entry in the exported `config.json` (`airport.cc:217-226`),
as an ordered field list. -/
def metaEntry (c : CameraConfig) : List (String × MetaVal) :=
  [("id", MetaVal.nat c.id),
   ("processing", MetaVal.str c.processing),
   ("model", MetaVal.str c.model),
   ("frame_size", MetaVal.nat c.frameSize),
   ("frame_interval", MetaVal.rat c.frameInterval),
   ("inference_delay", MetaVal.rat c.inferenceDelay),
   ("result_size", MetaVal.nat c.resultSize)]

/-- The `cameras` array of the exported metadata document
(`airport.cc:216-226`): one entry per camera config, in order. -/
def metaCameras (scenario : ℕ) (e : Entropy) : List (List (String × MetaVal)) :=
  (configs scenario e).map metaEntry

/-- An all-zero entropy source, used to evaluate the model at concrete
points: every proc draw is `0` (category `"camera"`) and every normal draw
sits exactly at its mean. -/
def trivEntropy : Entropy :=
  { procChoice := fun _ => 0
    zFrameSize := fun _ => 0
    zFrameInterval := fun _ => 0
    zInferenceDelay := fun _ => 0
    zResultSize := fun _ => 0 }

end Airport

namespace Warehouse

/-- Camera-tier size for a scenario: `6 + scenario % 5` (`warehouse.cc:70`). -/
def numCameras (scenario : ℕ) : ℕ := 6 + scenario % 5

/-- Edge-tier size for a scenario: `2 + scenario % 2` (`warehouse.cc:71`). -/
def numEdges (scenario : ℕ) : ℕ := 2 + scenario % 2

/-- Cloud-tier size, fixed at `2` (`warehouse.cc:72`). -/
def numClouds : ℕ := 2

/-- `GetInferenceDelay` (`warehouse.cc:39-43`): a fixed per-model constant. -/
def GetInferenceDelay (model : String) : ℚ :=
  if model = "small" then 1 / 100 else if model = "medium" then 1 / 20 else 3 / 25

/-- `GetResultSize` (`warehouse.cc:45-49`): a fixed per-model constant. -/
def GetResultSize (model : String) : ℕ :=
  if model = "small" then 200 else if model = "medium" then 500 else 1200

/-- The per-camera configuration record (`warehouse.cc:25-35`). -/
structure CameraConfig where
  id : ℕ
  edgeId : ℕ
  cloudId : ℕ
  processing : String
  model : String
  frameSize : ℕ
  frameInterval : ℚ
  inferenceDelay : ℚ
  resultSize : ℕ
deriving DecidableEq, Repr

/-- One iteration of the camera-config loop (`warehouse.cc:134-149`): the
model and processing categories follow the deterministic pattern on `i`, and
frame size and interval are the constants `1500` bytes and `0.1` seconds. -/
def mkConfig (scenario : ℕ) (i : ℕ) : CameraConfig :=
  let model := if i % 3 = 0 then "heavy" else if i % 2 ≠ 0 then "medium" else "small"
  let proc := if i % 3 = 0 then "cloud" else if i % 2 ≠ 0 then "edge" else "camera"
  { id := i
    edgeId := i % numEdges scenario
    cloudId := i % numClouds
    processing := proc
    model := model
    frameSize := 1500
    frameInterval := 1 / 10
    inferenceDelay := GetInferenceDelay model
    resultSize := GetResultSize model }

/-- The scenario's full camera-config vector (`warehouse.cc:132-149`). -/
def configs (scenario : ℕ) : List CameraConfig :=
  (List.range (numCameras scenario)).map (mkConfig scenario)

/-- The warehouse topology's tiers. -/
inductive Tier
  | camera
  | edge
  | cloud
  | control
deriving DecidableEq, Repr

/-- The fixed set of processing-location categories the warehouse pattern can
produce (`warehouse.cc:136`). -/
def procCategories : List String := ["camera", "edge", "cloud"]

/-- The node receiving a camera's ingest flow, and sourcing its result flow
(`warehouse.cc:153-156` and `warehouse.cc:169-172`). -/
def destNode (c : CameraConfig) : Tier × ℕ :=
  if c.processing = "camera" then (Tier.camera, c.id)
  else if c.processing = "edge" then (Tier.edge, c.edgeId)
  else (Tier.cloud, c.cloudId)

/-- The ingest flow (`warehouse.cc:158-164`). -/
def ingestFlow (c : CameraConfig) : FlowDescriptor (Tier × ℕ) :=
  { source := (Tier.camera, c.id)
    dest := destNode c
    rate := (((c.frameSize * 8) % 4294967296 : ℕ) : ℚ) / c.frameInterval
    payloadSize := c.frameSize
    start := 1
    stop := 20 }

/-- The result flow (`warehouse.cc:168-180`): processing node to the control
sink. -/
def resultFlow (c : CameraConfig) : FlowDescriptor (Tier × ℕ) :=
  { source := destNode c
    dest := (Tier.control, 0)
    rate := (((c.resultSize * 8) % 4294967296 : ℕ) : ℚ) / (1 / 2)
    payloadSize := c.resultSize
    start := 1 + c.inferenceDelay
    stop := 20 }

/-- One camera's entry in the exported `config.json` (`warehouse.cc:200-207`),
as an ordered field list.  Note the document carries neither the frame size
nor the frame interval. -/
def metaEntry (c : CameraConfig) : List (String × MetaVal) :=
  [("id", MetaVal.nat c.id),
   ("processing", MetaVal.str c.processing),
   ("model", MetaVal.str c.model),
   ("inference_delay", MetaVal.rat c.inferenceDelay),
   ("result_size", MetaVal.nat c.resultSize)]

/-- The `cameras` array of the exported metadata document
(`warehouse.cc:199-207`). -/
def metaCameras (scenario : ℕ) : List (List (String × MetaVal)) :=
  (configs scenario).map metaEntry

end Warehouse

namespace FixedTable

/-- Modelled from the spec: the fixed-scenario-table variant's source is not
part of this tree; per the spec it selects a scenario by looking the requested
identifier up in a small hard-coded table, and an unrecognized identifier is
non-fatal — the run falls back to default scenario 1 and a warning is logged.
The result is the pair (scenario actually run, whether the fallback warning
was logged); the function is total, so no identifier aborts the run. -/
def selectScenario (table : List ℕ) (requested : ℕ) : ℕ × Bool :=
  if requested ∈ table then (requested, false) else (1, true)

end FixedTable

namespace Airport

/-- A camera config is produced by a scenario iff it is `mkConfig` of some
index below the camera count. -/
theorem mem_configs {s : ℕ} {e : Entropy} {c : CameraConfig} :
    c ∈ configs s e ↔ ∃ i, i < numCameras s ∧ mkConfig s e i = c := by
  simp [configs, List.mem_map, List.mem_range]

theorem GetInferenceDelay_floor (m : String) (z : ℚ) :
    1 / 1000 ≤ GetInferenceDelay m z :=
  le_max_left _ _

theorem GetResultSize_floor (m : String) (z : ℚ) : 50 ≤ GetResultSize m z :=
  le_max_left _ _

theorem GetFrameSize_floor (m : String) (z : ℚ) : 500 ≤ GetFrameSize m z :=
  le_max_left _ _

theorem GetFrameInterval_floor (p : String) (z : ℚ) :
    1 / 100 ≤ GetFrameInterval p z :=
  le_max_left _ _

theorem GetFrameInterval_pos (p : String) (z : ℚ) : 0 < GetFrameInterval p z :=
  lt_of_lt_of_le (by norm_num) (GetFrameInterval_floor p z)

/-- Whatever the uniform draw in `[0,3]`, the sampled processing category is
one of the four table entries. -/
theorem procs_getD_mem (k : Fin 4) : procs.getD (k : ℕ) "core" ∈ procs := by
  rcases k with ⟨k, hk⟩
  interval_cases k <;> simp [procs]

end Airport

namespace Warehouse

/-- A camera config is produced by a scenario iff it is `mkConfig` of some
index below the camera count. -/
theorem mem_configs_wh {s : ℕ} {c : CameraConfig} :
    c ∈ configs s ↔ ∃ i, i < numCameras s ∧ mkConfig s i = c := by
  simp [configs, List.mem_map, List.mem_range]

theorem GetInferenceDelay_floor_wh (m : String) : 1 / 1000 ≤ GetInferenceDelay m := by
  unfold GetInferenceDelay
  split_ifs <;> norm_num

theorem GetInferenceDelay_lt (m : String) : GetInferenceDelay m < 19 := by
  unfold GetInferenceDelay
  split_ifs <;> norm_num

theorem GetResultSize_floor_wh (m : String) : 50 ≤ GetResultSize m := by
  unfold GetResultSize
  split_ifs <;> norm_num

end Warehouse

/-- Claim C2: for every scenario index `i`, each tier's node count equals
`base + (i mod range)` for fixed per-tier pairs — airport: cameras
`150 + i % 51`, access `10 + i % 6`, aggregation `4 + i % 3`, core `2`,
cloud `1`; warehouse: cameras `6 + i % 5`, edges `2 + i % 2`, clouds `2` —
so every tier size is at least `1` and is a deterministic function of `i`. -/
theorem C2_tier_sizes (i : ℕ) :
    Airport.numCameras i = 150 + i % 51 ∧ 1 ≤ Airport.numCameras i ∧
    Airport.numAccessNodes i = 10 + i % 6 ∧ 1 ≤ Airport.numAccessNodes i ∧
    Airport.numAggNodes i = 4 + i % 3 ∧ 1 ≤ Airport.numAggNodes i ∧
    Airport.numCoreNodes = 2 ∧ Airport.numCloudNodes = 1 ∧
    Warehouse.numCameras i = 6 + i % 5 ∧ 1 ≤ Warehouse.numCameras i ∧
    Warehouse.numEdges i = 2 + i % 2 ∧ 1 ≤ Warehouse.numEdges i ∧
    Warehouse.numClouds = 2 := by
  unfold Airport.numCameras Airport.numAccessNodes Airport.numAggNodes
    Airport.numCoreNodes Airport.numCloudNodes Warehouse.numCameras
    Warehouse.numEdges Warehouse.numClouds
  omega

/-- Claim C4 (confirmed): every camera of either variant satisfies the
clamped floors — frame interval at least `0.01` (hence positive), frame size
at least `500` bytes, result size at least `50` bytes, inference delay at
least `0.001` seconds — whatever the underlying draws were. -/
theorem C4_attribute_floors :
    (∀ (s : ℕ) (e : Airport.Entropy) (c : Airport.CameraConfig),
      c ∈ Airport.configs s e →
      0 < c.frameInterval ∧ 1 / 100 ≤ c.frameInterval ∧ 500 ≤ c.frameSize ∧
      50 ≤ c.resultSize ∧ 1 / 1000 ≤ c.inferenceDelay) ∧
    (∀ (s : ℕ) (c : Warehouse.CameraConfig), c ∈ Warehouse.configs s →
      0 < c.frameInterval ∧ 500 ≤ c.frameSize ∧ 50 ≤ c.resultSize ∧
      1 / 1000 ≤ c.inferenceDelay) := by
  constructor
  · intro s e c hc
    obtain ⟨i, hi, rfl⟩ := Airport.mem_configs.mp hc
    exact ⟨Airport.GetFrameInterval_pos _ _, Airport.GetFrameInterval_floor _ _,
      Airport.GetFrameSize_floor _ _, Airport.GetResultSize_floor _ _,
      Airport.GetInferenceDelay_floor _ _⟩
  · intro s c hc
    obtain ⟨i, hi, rfl⟩ := Warehouse.mem_configs_wh.mp hc
    exact ⟨by norm_num [Warehouse.mkConfig], by norm_num [Warehouse.mkConfig],
      Warehouse.GetResultSize_floor_wh _, Warehouse.GetInferenceDelay_floor_wh _⟩

/-- Witness for C4 at scenario `0`, camera `0`, all-zero entropy. -/
theorem C4_attribute_floors_witness :
    0 < (Airport.mkConfig 0 Airport.trivEntropy 0).frameInterval ∧
    500 ≤ (Airport.mkConfig 0 Airport.trivEntropy 0).frameSize ∧
    0 < (Warehouse.mkConfig 0 0).frameInterval ∧
    50 ≤ (Warehouse.mkConfig 0 0).resultSize := by
  have ha := C4_attribute_floors.1 0 Airport.trivEntropy
    (Airport.mkConfig 0 Airport.trivEntropy 0)
    (Airport.mem_configs.mpr ⟨0, by norm_num [Airport.numCameras], rfl⟩)
  have hw := C4_attribute_floors.2 0 (Warehouse.mkConfig 0 0)
    (Warehouse.mem_configs_wh.mpr ⟨0, by norm_num [Warehouse.numCameras], rfl⟩)
  exact ⟨ha.1, ha.2.2.1, hw.1, hw.2.2.1⟩

/-- Claim C8: in the fixed-scenario-table variant, an unrecognized scenario
identifier is non-fatal — it is flagged with a warning and the run falls back
to default scenario `1`. -/
theorem C8_fallback (table : List ℕ) (requested : ℕ) (h : requested ∉ table) :
    FixedTable.selectScenario table requested = (1, true) := by
  simp [FixedTable.selectScenario, h]

/-- Witness for C8: identifier `99` against the table `[1, 2, 3]`. -/
theorem C8_fallback_witness :
    99 ∉ ([1, 2, 3] : List ℕ) ∧
    FixedTable.selectScenario [1, 2, 3] 99 = (1, true) :=
  ⟨by decide, C8_fallback [1, 2, 3] 99 (by decide)⟩

/-- Claim C9: a camera whose processing category is `"camera"` sends its
ingest flow to itself (source node = destination node), and that same camera
node sources the result flow toward the sink. -/
theorem C9_local_processing :
    (∀ c : Airport.CameraConfig, c.processing = "camera" →
      (Airport.ingestFlow c).source = (Airport.ingestFlow c).dest ∧
      (Airport.ingestFlow c).source = (Airport.Tier.camera, c.id) ∧
      (Airport.resultFlow c).source = (Airport.Tier.camera, c.id)) ∧
    (∀ c : Warehouse.CameraConfig, c.processing = "camera" →
      (Warehouse.ingestFlow c).source = (Warehouse.ingestFlow c).dest ∧
      (Warehouse.ingestFlow c).source = (Warehouse.Tier.camera, c.id) ∧
      (Warehouse.resultFlow c).source = (Warehouse.Tier.camera, c.id)) := by
  constructor
  · intro c h
    simp [Airport.ingestFlow, Airport.resultFlow, Airport.destNode, h]
  · intro c h
    simp [Warehouse.ingestFlow, Warehouse.resultFlow, Warehouse.destNode, h]

/-- Witness for C9: airport camera `0` under all-zero entropy (proc draw `0`
selects `"camera"`), and warehouse camera `2` (even, not divisible by 3,
hence `"camera"`). -/
theorem C9_local_processing_witness :
    (Airport.ingestFlow (Airport.mkConfig 0 Airport.trivEntropy 0)).source
        = (Airport.ingestFlow (Airport.mkConfig 0 Airport.trivEntropy 0)).dest ∧
    (Warehouse.ingestFlow (Warehouse.mkConfig 0 2)).source
        = (Warehouse.ingestFlow (Warehouse.mkConfig 0 2)).dest :=
  ⟨(C9_local_processing.1 _ rfl).1, (C9_local_processing.2 _ rfl).1⟩

/-- Claim C10: the warehouse variant consumes no random source, so every
scenario's camera-config vector is the following explicit pure function of
the scenario index and the camera id; in particular any two runs with the
same scenario count produce identical camera configurations. -/
theorem C10_warehouse_deterministic (s : ℕ) :
    Warehouse.configs s = (List.range (6 + s % 5)).map (fun i =>
      ({ id := i
         edgeId := i % (2 + s % 2)
         cloudId := i % 2
         processing := if i % 3 = 0 then "cloud" else if i % 2 ≠ 0 then "edge" else "camera"
         model := if i % 3 = 0 then "heavy" else if i % 2 ≠ 0 then "medium" else "small"
         frameSize := 1500
         frameInterval := 1 / 10
         inferenceDelay := if i % 3 = 0 then 3 / 25 else if i % 2 ≠ 0 then 1 / 20 else 1 / 100
         resultSize := if i % 3 = 0 then 1200 else if i % 2 ≠ 0 then 500 else 200 }
        : Warehouse.CameraConfig)) := by
  unfold Warehouse.configs Warehouse.numCameras
  refine List.map_congr_left ?_
  intro i hi
  by_cases h3 : i % 3 = 0 <;> by_cases h2 : i % 2 = 0 <;>
    simp [Warehouse.mkConfig, Warehouse.GetInferenceDelay, Warehouse.GetResultSize,
      Warehouse.numEdges, Warehouse.numClouds, h3, h2]

/-- An entropy source whose inference-delay draw is `10000` standard
deviations above the mean: a possible (if astronomically unlikely) normal
deviate, giving camera `0` a clamped inference delay of `20.01` seconds. -/
def bigDelayEntropy : Airport.Entropy :=
  { procChoice := fun _ => 0
    zFrameSize := fun _ => 0
    zFrameInterval := fun _ => 0
    zInferenceDelay := fun _ => 10000
    zResultSize := fun _ => 0 }

/-- Counterexample to claim C1 as stated: the inference delay is clamped
below but unbounded above, so a large enough normal draw makes the result
flow start at `1.0 + delay ≥ 20.0`, no earlier than its stop time. -/
theorem C1_flow_timing_counterexample :
    Airport.mkConfig 0 bigDelayEntropy 0 ∈ Airport.configs 0 bigDelayEntropy ∧
    ¬ (Airport.resultFlow (Airport.mkConfig 0 bigDelayEntropy 0)).start
        < (Airport.resultFlow (Airport.mkConfig 0 bigDelayEntropy 0)).stop := by
  constructor
  · exact Airport.mem_configs.mpr ⟨0, by norm_num [Airport.numCameras], rfl⟩
  · have hd : (19 : ℚ) ≤ (Airport.mkConfig 0 bigDelayEntropy 0).inferenceDelay := by
      show (19 : ℚ) ≤ Airport.GetInferenceDelay "small" 10000
      unfold Airport.GetInferenceDelay Airport.inferenceDelayBase
      rw [le_max_iff]
      right
      norm_num
    simp only [Airport.resultFlow, not_lt]
    linarith

/-- Claim C1, amended: the result flow starts at the ingest flow's start
(the fixed `1.0` second warm-up) plus the camera's inference delay and both
flows stop at the `20.0` second horizon; the result flow starts strictly
before its stop time whenever the clamped inference delay is below `19`
seconds — which always holds in the warehouse variant (delays at most
`0.12`), while in the airport variant the sampled delay is clamped below but
not above. -/
theorem C1_flow_timing_amended :
    (∀ (s : ℕ) (e : Airport.Entropy) (c : Airport.CameraConfig),
      c ∈ Airport.configs s e →
      (Airport.resultFlow c).start = (Airport.ingestFlow c).start + c.inferenceDelay ∧
      (Airport.ingestFlow c).start = 1 ∧
      (Airport.ingestFlow c).stop = 20 ∧ (Airport.resultFlow c).stop = 20 ∧
      (c.inferenceDelay < 19 →
        (Airport.resultFlow c).start < (Airport.resultFlow c).stop)) ∧
    (∀ (s : ℕ) (c : Warehouse.CameraConfig), c ∈ Warehouse.configs s →
      (Warehouse.resultFlow c).start = (Warehouse.ingestFlow c).start + c.inferenceDelay ∧
      (Warehouse.ingestFlow c).start = 1 ∧
      (Warehouse.ingestFlow c).stop = 20 ∧ (Warehouse.resultFlow c).stop = 20 ∧
      (Warehouse.resultFlow c).start < (Warehouse.resultFlow c).stop) := by
  constructor
  · intro s e c _
    refine ⟨rfl, rfl, rfl, rfl, ?_⟩
    intro h
    show 1 + c.inferenceDelay < 20
    linarith
  · intro s c hc
    obtain ⟨i, hi, rfl⟩ := Warehouse.mem_configs_wh.mp hc
    refine ⟨rfl, rfl, rfl, rfl, ?_⟩
    have hlt : (Warehouse.mkConfig s i).inferenceDelay < 19 :=
      Warehouse.GetInferenceDelay_lt _
    show 1 + (Warehouse.mkConfig s i).inferenceDelay < 20
    linarith

/-- Witness for the amended C1 at scenario `0`, camera `0`: under all-zero
entropy the airport delay is `0.01 < 19`. -/
theorem C1_flow_timing_witness :
    (Airport.resultFlow (Airport.mkConfig 0 Airport.trivEntropy 0)).start
        < (Airport.resultFlow (Airport.mkConfig 0 Airport.trivEntropy 0)).stop ∧
    (Warehouse.resultFlow (Warehouse.mkConfig 0 0)).start
        < (Warehouse.resultFlow (Warehouse.mkConfig 0 0)).stop := by
  have ha := C1_flow_timing_amended.1 0 Airport.trivEntropy
    (Airport.mkConfig 0 Airport.trivEntropy 0)
    (Airport.mem_configs.mpr ⟨0, by norm_num [Airport.numCameras], rfl⟩)
  have hw := C1_flow_timing_amended.2 0 (Warehouse.mkConfig 0 0)
    (Warehouse.mem_configs_wh.mpr ⟨0, by norm_num [Warehouse.numCameras], rfl⟩)
  refine ⟨ha.2.2.2.2 ?_, hw.2.2.2.2⟩
  show Airport.GetInferenceDelay "small" 0 < 19
  unfold Airport.GetInferenceDelay Airport.inferenceDelayBase
  rw [max_lt_iff]
  norm_num

/-- An entropy source whose frame-size draw is `10^7` standard deviations
above the mean, giving camera `0` a frame size of `1000001000` bytes, large
enough that `frameSize * 8` wraps in `uint32_t` arithmetic. -/
def hugeFrameEntropy : Airport.Entropy :=
  { procChoice := fun _ => 0
    zFrameSize := fun _ => 10000000
    zFrameInterval := fun _ => 0
    zInferenceDelay := fun _ => 0
    zResultSize := fun _ => 0 }

/-- The frame size of camera `0` under `hugeFrameEntropy`. -/
theorem hugeFrameEntropy_frameSize :
    (Airport.mkConfig 0 hugeFrameEntropy 0).frameSize = 1000001000 := by
  show Airport.GetFrameSize "small" 10000000 = 1000001000
  unfold Airport.GetFrameSize Airport.frameSizeBase castU32
  norm_num
  rfl

/-- The frame interval of camera `0` under `hugeFrameEntropy`. -/
theorem hugeFrameEntropy_frameInterval :
    (Airport.mkConfig 0 hugeFrameEntropy 0).frameInterval = 3 / 20 := by
  show Airport.GetFrameInterval "camera" 0 = 3 / 20
  unfold Airport.GetFrameInterval Airport.frameIntervalBase
  norm_num

/-- Counterexample to claim C3 as stated: `c.frameSize * 8` is computed in
`uint32_t` arithmetic, so for a camera whose sampled frame size exceeds
`2^29` bytes the product wraps modulo `2^32` and the flow's rate is not
`frameSize·8 / frameInterval`. -/
theorem C3_flow_rates_counterexample :
    Airport.mkConfig 0 hugeFrameEntropy 0 ∈ Airport.configs 0 hugeFrameEntropy ∧
    (Airport.ingestFlow (Airport.mkConfig 0 hugeFrameEntropy 0)).rate
      ≠ ((Airport.mkConfig 0 hugeFrameEntropy 0).frameSize * 8 : ℚ)
          / (Airport.mkConfig 0 hugeFrameEntropy 0).frameInterval := by
  constructor
  · exact Airport.mem_configs.mpr ⟨0, by norm_num [Airport.numCameras], rfl⟩
  · simp only [Airport.ingestFlow, hugeFrameEntropy_frameSize,
      hugeFrameEntropy_frameInterval]
    norm_num

/-- Claim C3, amended: the ingest flow's payload is `frameSize` and the
result flow's payload is `resultSize`; the ingest rate equals
`frameSize·8 / frameInterval` bits per second and the result rate equals
`resultSize·8 / 0.5 = resultSize·16` bits per second (a fixed `0.5` second
window independent of the inference delay) provided the byte count times 8
does not exceed the `uint32_t` range `2^32` in which the products are
computed — which the sampler does not guarantee, since the sizes are clamped
below but not above.  The warehouse sizes are fixed and small, so its rates
hold unconditionally. -/
theorem C3_flow_rates_amended :
    (∀ c : Airport.CameraConfig,
      (Airport.ingestFlow c).payloadSize = c.frameSize ∧
      (Airport.resultFlow c).payloadSize = c.resultSize ∧
      (c.frameSize * 8 < 4294967296 →
        (Airport.ingestFlow c).rate = (c.frameSize * 8 : ℚ) / c.frameInterval) ∧
      (c.resultSize * 8 < 4294967296 →
        (Airport.resultFlow c).rate = (c.resultSize * 8 : ℚ) / (1 / 2) ∧
        (Airport.resultFlow c).rate = (c.resultSize : ℚ) * 16)) ∧
    (∀ c : Warehouse.CameraConfig,
      (Warehouse.ingestFlow c).payloadSize = c.frameSize ∧
      (Warehouse.resultFlow c).payloadSize = c.resultSize ∧
      (c.frameSize * 8 < 4294967296 →
        (Warehouse.ingestFlow c).rate = (c.frameSize * 8 : ℚ) / c.frameInterval) ∧
      (c.resultSize * 8 < 4294967296 →
        (Warehouse.resultFlow c).rate = (c.resultSize * 8 : ℚ) / (1 / 2) ∧
        (Warehouse.resultFlow c).rate = (c.resultSize : ℚ) * 16)) := by
  constructor
  · intro c
    refine ⟨rfl, rfl, ?_, ?_⟩
    · intro h
      simp only [Airport.ingestFlow, Nat.mod_eq_of_lt h]
      push_cast
      ring
    · intro h
      have hm : (c.resultSize * 8) % 4294967296 = c.resultSize * 8 :=
        Nat.mod_eq_of_lt h
      constructor <;> simp only [Airport.resultFlow, hm] <;> push_cast <;>
        field_simp <;> ring
  · intro c
    refine ⟨rfl, rfl, ?_, ?_⟩
    · intro h
      simp only [Warehouse.ingestFlow, Nat.mod_eq_of_lt h]
      push_cast
      ring
    · intro h
      have hm : (c.resultSize * 8) % 4294967296 = c.resultSize * 8 :=
        Nat.mod_eq_of_lt h
      constructor <;> simp only [Warehouse.resultFlow, hm] <;> push_cast <;>
        field_simp <;> ring

/-- Witness for the amended C3 at concrete cameras whose sizes are far below
the `uint32_t` wrap threshold. -/
theorem C3_flow_rates_witness :
    (Airport.ingestFlow (Airport.mkConfig 0 Airport.trivEntropy 0)).rate
      = ((Airport.mkConfig 0 Airport.trivEntropy 0).frameSize * 8 : ℚ)
          / (Airport.mkConfig 0 Airport.trivEntropy 0).frameInterval ∧
    (Warehouse.resultFlow (Warehouse.mkConfig 0 0)).rate
      = ((Warehouse.mkConfig 0 0).resultSize : ℚ) * 16 := by
  refine ⟨(C3_flow_rates_amended.1 (Airport.mkConfig 0 Airport.trivEntropy 0)).2.2.1 ?_,
    ((C3_flow_rates_amended.2 (Warehouse.mkConfig 0 0)).2.2.2 ?_).2⟩
  · show Airport.GetFrameSize "small" 0 * 8 < 4294967296
    unfold Airport.GetFrameSize Airport.frameSizeBase castU32
    norm_num
    decide
  · show Warehouse.GetResultSize "heavy" * 8 < 4294967296
    unfold Warehouse.GetResultSize
    decide

namespace Airport

theorem destNode_camera (c : CameraConfig) (h : c.processing = "camera") :
    destNode c = (Tier.camera, c.id) := by
  simp [destNode, h]

theorem destNode_access (c : CameraConfig) (h : c.processing = "access") :
    destNode c = (Tier.access, c.accessId) := by
  simp [destNode, h]

theorem destNode_aggregation (c : CameraConfig) (h : c.processing = "aggregation") :
    destNode c = (Tier.aggregation, c.aggregationId) := by
  simp [destNode, h]

theorem destNode_core (c : CameraConfig) (h : c.processing = "core") :
    destNode c = (Tier.core, c.coreId) := by
  simp [destNode, h]

end Airport

namespace Warehouse

theorem destNode_camera_wh (c : CameraConfig) (h : c.processing = "camera") :
    destNode c = (Tier.camera, c.id) := by
  simp [destNode, h]

theorem destNode_edge (c : CameraConfig) (h : c.processing = "edge") :
    destNode c = (Tier.edge, c.edgeId) := by
  simp [destNode, h]

theorem destNode_cloud (c : CameraConfig) (h : c.processing = "cloud") :
    destNode c = (Tier.cloud, c.cloudId) := by
  simp [destNode, h]

/-- The pattern on the camera id only ever produces one of the three fixed
processing categories. -/
theorem mkConfig_processing_mem (s i : ℕ) :
    (mkConfig s i).processing ∈ procCategories := by
  by_cases h3 : i % 3 = 0 <;> by_cases h2 : i % 2 = 0 <;>
    simp [mkConfig, procCategories, h3, h2]

end Warehouse

/-- Claim C5: each camera's per-tier destination indices are its id reduced
modulo the tier's size, and the processing-location category selects which of
these indices addresses the node that receives the ingest flow and sources
the result flow. -/
theorem C5_modulo_placement :
    (∀ (s : ℕ) (e : Airport.Entropy) (c : Airport.CameraConfig),
      c ∈ Airport.configs s e →
      c.accessId = c.id % Airport.numAccessNodes s ∧
      c.aggregationId = c.id % Airport.numAggNodes s ∧
      c.coreId = c.id % Airport.numCoreNodes ∧
      (Airport.ingestFlow c).dest = Airport.destNode c ∧
      (Airport.resultFlow c).source = Airport.destNode c ∧
      (c.processing = "camera" → Airport.destNode c = (Airport.Tier.camera, c.id)) ∧
      (c.processing = "access" →
        Airport.destNode c = (Airport.Tier.access, c.id % Airport.numAccessNodes s)) ∧
      (c.processing = "aggregation" →
        Airport.destNode c = (Airport.Tier.aggregation, c.id % Airport.numAggNodes s)) ∧
      (c.processing = "core" →
        Airport.destNode c = (Airport.Tier.core, c.id % Airport.numCoreNodes))) ∧
    (∀ (s : ℕ) (c : Warehouse.CameraConfig), c ∈ Warehouse.configs s →
      c.edgeId = c.id % Warehouse.numEdges s ∧
      c.cloudId = c.id % Warehouse.numClouds ∧
      (Warehouse.ingestFlow c).dest = Warehouse.destNode c ∧
      (Warehouse.resultFlow c).source = Warehouse.destNode c ∧
      (c.processing = "camera" → Warehouse.destNode c = (Warehouse.Tier.camera, c.id)) ∧
      (c.processing = "edge" →
        Warehouse.destNode c = (Warehouse.Tier.edge, c.id % Warehouse.numEdges s)) ∧
      (c.processing = "cloud" →
        Warehouse.destNode c = (Warehouse.Tier.cloud, c.id % Warehouse.numClouds))) := by
  constructor
  · intro s e c hc
    obtain ⟨i, hi, rfl⟩ := Airport.mem_configs.mp hc
    exact ⟨rfl, rfl, rfl, rfl, rfl,
      fun h => Airport.destNode_camera _ h,
      fun h => Airport.destNode_access _ h,
      fun h => Airport.destNode_aggregation _ h,
      fun h => Airport.destNode_core _ h⟩
  · intro s c hc
    obtain ⟨i, hi, rfl⟩ := Warehouse.mem_configs_wh.mp hc
    exact ⟨rfl, rfl, rfl, rfl,
      fun h => Warehouse.destNode_camera_wh _ h,
      fun h => Warehouse.destNode_edge _ h,
      fun h => Warehouse.destNode_cloud _ h⟩

/-- Witness for C5: airport camera `7` (all-zero entropy, processing
`"camera"`) and warehouse camera `2` (even, not divisible by 3, processing
`"camera"`) at scenario `0`. -/
theorem C5_modulo_placement_witness :
    (Airport.mkConfig 0 Airport.trivEntropy 7).accessId
        = (Airport.mkConfig 0 Airport.trivEntropy 7).id % Airport.numAccessNodes 0 ∧
    Airport.destNode (Airport.mkConfig 0 Airport.trivEntropy 7)
        = (Airport.Tier.camera, 7) ∧
    (Warehouse.mkConfig 0 2).edgeId
        = (Warehouse.mkConfig 0 2).id % Warehouse.numEdges 0 ∧
    Warehouse.destNode (Warehouse.mkConfig 0 2) = (Warehouse.Tier.camera, 2) := by
  have ha := C5_modulo_placement.1 0 Airport.trivEntropy
    (Airport.mkConfig 0 Airport.trivEntropy 7)
    (Airport.mem_configs.mpr ⟨7, by norm_num [Airport.numCameras], rfl⟩)
  have hw := C5_modulo_placement.2 0 (Warehouse.mkConfig 0 2)
    (Warehouse.mem_configs_wh.mpr ⟨2, by norm_num [Warehouse.numCameras], rfl⟩)
  exact ⟨ha.1, ha.2.2.2.2.2.1 rfl, hw.1, hw.2.2.2.2.1 rfl⟩

/-- Counterexample to claim C6 as stated: the warehouse variant's metadata
entries carry no `frame_size` field (nor `frame_interval`), so the exported
document for scenario `0` contains an entry without the claimed field. -/
theorem C6_metadata_counterexample :
    Warehouse.metaEntry (Warehouse.mkConfig 0 0) ∈ Warehouse.metaCameras 0 ∧
    "frame_size" ∉ (Warehouse.metaEntry (Warehouse.mkConfig 0 0)).map Prod.fst := by
  constructor
  · exact List.mem_map_of_mem _
      (Warehouse.mem_configs_wh.mpr ⟨0, by norm_num [Warehouse.numCameras], rfl⟩)
  · decide

/-- Claim C6, amended: each variant's metadata document has exactly
`numCameras` entries and each entry's processing-location value comes from
the variant's fixed category set; the airport entries carry all seven claimed
fields, while the warehouse entries carry only identifier, processing
category, model category, inference delay and result size — frame size and
frame interval are omitted there. -/
theorem C6_metadata_amended :
    (∀ (s : ℕ) (e : Airport.Entropy),
      (Airport.metaCameras s e).length = Airport.numCameras s) ∧
    (∀ (s : ℕ) (e : Airport.Entropy) (entry : List (String × MetaVal)),
      entry ∈ Airport.metaCameras s e →
      entry.map Prod.fst = ["id", "processing", "model", "frame_size",
        "frame_interval", "inference_delay", "result_size"] ∧
      ∃ p, ("processing", MetaVal.str p) ∈ entry ∧ p ∈ Airport.procs) ∧
    (∀ s : ℕ, (Warehouse.metaCameras s).length = Warehouse.numCameras s) ∧
    (∀ (s : ℕ) (entry : List (String × MetaVal)),
      entry ∈ Warehouse.metaCameras s →
      entry.map Prod.fst = ["id", "processing", "model", "inference_delay",
        "result_size"] ∧
      ∃ p, ("processing", MetaVal.str p) ∈ entry ∧ p ∈ Warehouse.procCategories) := by
  refine ⟨?_, ?_, ?_, ?_⟩
  · intro s e
    simp [Airport.metaCameras, Airport.configs]
  · intro s e entry hentry
    obtain ⟨c, hc, rfl⟩ := List.mem_map.mp hentry
    obtain ⟨i, hi, rfl⟩ := Airport.mem_configs.mp hc
    refine ⟨by simp [Airport.metaEntry], (Airport.mkConfig s e i).processing,
      by simp [Airport.metaEntry], ?_⟩
    exact Airport.procs_getD_mem (e.procChoice i)
  · intro s
    simp [Warehouse.metaCameras, Warehouse.configs]
  · intro s entry hentry
    obtain ⟨c, hc, rfl⟩ := List.mem_map.mp hentry
    obtain ⟨i, hi, rfl⟩ := Warehouse.mem_configs_wh.mp hc
    exact ⟨by simp [Warehouse.metaEntry], (Warehouse.mkConfig s i).processing,
      by simp [Warehouse.metaEntry], Warehouse.mkConfig_processing_mem s i⟩

/-- Witness for the amended C6 at scenario `0` with all-zero entropy. -/
theorem C6_metadata_witness :
    (Airport.metaEntry (Airport.mkConfig 0 Airport.trivEntropy 0)).map Prod.fst
      = ["id", "processing", "model", "frame_size", "frame_interval",
         "inference_delay", "result_size"] ∧
    (Warehouse.metaEntry (Warehouse.mkConfig 0 0)).map Prod.fst
      = ["id", "processing", "model", "inference_delay", "result_size"] := by
  have ha := C6_metadata_amended.2.1 0 Airport.trivEntropy
    (Airport.metaEntry (Airport.mkConfig 0 Airport.trivEntropy 0))
    (List.mem_map_of_mem _
      (Airport.mem_configs.mpr ⟨0, by norm_num [Airport.numCameras], rfl⟩))
  have hw := C6_metadata_amended.2.2.2 0
    (Warehouse.metaEntry (Warehouse.mkConfig 0 0))
    (List.mem_map_of_mem _
      (Warehouse.mem_configs_wh.mpr ⟨0, by norm_num [Warehouse.numCameras], rfl⟩))
  exact ⟨ha.1, hw.1⟩

/-- Claim C7: the frame-interval distribution base is keyed on the
processing-location category — `0.15` for `"camera"`, `0.1` for `"access"`,
`0.08` for `"aggregation"`, `0.05` otherwise — and not on the model category
(two cameras with equal processing category and equal interval draw get equal
intervals, whatever their models), while frame size, inference delay and
result size are keyed on the model category; the warehouse variant fixes
frame interval at `0.1` and frame size at `1500` and keys delay and result
size on the model category. -/
theorem C7_interval_base :
    Airport.frameIntervalBase "camera" = 3 / 20 ∧
    Airport.frameIntervalBase "access" = 1 / 10 ∧
    Airport.frameIntervalBase "aggregation" = 2 / 25 ∧
    (∀ p : String, p ≠ "camera" → p ≠ "access" → p ≠ "aggregation" →
      Airport.frameIntervalBase p = 1 / 20) ∧
    (∀ (s : ℕ) (e : Airport.Entropy) (i : ℕ),
      (Airport.mkConfig s e i).frameInterval
        = Airport.GetFrameInterval (Airport.mkConfig s e i).processing
            (e.zFrameInterval i) ∧
      (Airport.mkConfig s e i).frameSize
        = Airport.GetFrameSize (Airport.mkConfig s e i).model (e.zFrameSize i) ∧
      (Airport.mkConfig s e i).inferenceDelay
        = Airport.GetInferenceDelay (Airport.mkConfig s e i).model
            (e.zInferenceDelay i) ∧
      (Airport.mkConfig s e i).resultSize
        = Airport.GetResultSize (Airport.mkConfig s e i).model (e.zResultSize i)) ∧
    (∀ (s₁ s₂ : ℕ) (e₁ e₂ : Airport.Entropy) (i₁ i₂ : ℕ),
      (Airport.mkConfig s₁ e₁ i₁).processing = (Airport.mkConfig s₂ e₂ i₂).processing →
      e₁.zFrameInterval i₁ = e₂.zFrameInterval i₂ →
      (Airport.mkConfig s₁ e₁ i₁).frameInterval
        = (Airport.mkConfig s₂ e₂ i₂).frameInterval) ∧
    (∀ (s₁ s₂ : ℕ) (e₁ e₂ : Airport.Entropy) (i₁ i₂ : ℕ),
      (Airport.mkConfig s₁ e₁ i₁).model = (Airport.mkConfig s₂ e₂ i₂).model →
      e₁.zFrameSize i₁ = e₂.zFrameSize i₂ →
      (Airport.mkConfig s₁ e₁ i₁).frameSize = (Airport.mkConfig s₂ e₂ i₂).frameSize) ∧
    (∀ (s i : ℕ),
      (Warehouse.mkConfig s i).frameInterval = 1 / 10 ∧
      (Warehouse.mkConfig s i).frameSize = 1500 ∧
      (Warehouse.mkConfig s i).inferenceDelay
        = Warehouse.GetInferenceDelay ((Warehouse.mkConfig s i).model) ∧
      (Warehouse.mkConfig s i).resultSize
        = Warehouse.GetResultSize ((Warehouse.mkConfig s i).model)) := by
  refine ⟨by simp [Airport.frameIntervalBase], by simp [Airport.frameIntervalBase],
    by simp [Airport.frameIntervalBase], ?_, ?_, ?_, ?_, ?_⟩
  · intro p h1 h2 h3
    simp [Airport.frameIntervalBase, h1, h2, h3]
  · intro s e i
    exact ⟨rfl, rfl, rfl, rfl⟩
  · intro s₁ s₂ e₁ e₂ i₁ i₂ h hz
    rw [show (Airport.mkConfig s₁ e₁ i₁).frameInterval
        = Airport.GetFrameInterval ((Airport.mkConfig s₁ e₁ i₁).processing)
            (e₁.zFrameInterval i₁) from rfl,
      show (Airport.mkConfig s₂ e₂ i₂).frameInterval
        = Airport.GetFrameInterval ((Airport.mkConfig s₂ e₂ i₂).processing)
            (e₂.zFrameInterval i₂) from rfl,
      h, hz]
  · intro s₁ s₂ e₁ e₂ i₁ i₂ h hz
    rw [show (Airport.mkConfig s₁ e₁ i₁).frameSize
        = Airport.GetFrameSize ((Airport.mkConfig s₁ e₁ i₁).model)
            (e₁.zFrameSize i₁) from rfl,
      show (Airport.mkConfig s₂ e₂ i₂).frameSize
        = Airport.GetFrameSize ((Airport.mkConfig s₂ e₂ i₂).model)
            (e₂.zFrameSize i₂) from rfl,
      h, hz]
  · intro s i
    exact ⟨rfl, rfl, rfl, rfl⟩

/-- Witness for C7: the fallthrough base at the concrete category `"core"`,
next to the keyed base at `"camera"`. -/
theorem C7_interval_base_witness :
    Airport.frameIntervalBase "core" = 1 / 20 ∧
    Airport.frameIntervalBase "camera" = 3 / 20 :=
  ⟨C7_interval_base.2.2.2.1 "core" (by decide) (by decide) (by decide),
    C7_interval_base.1⟩
